import Mathlib

/-!
Verification of the booking engine of `src/app.py` (maid-services).

Shallow embedding conventions:
* A `dt.time` value is modelled as minutes since midnight (`Nat`, `< 1440` for
  values produced by `dt.time`).  Comparison of `dt.time` values is exactly
  comparison of their minute counts.
* A `dt.date` is modelled as its ISO string (`String`); only equality of dates
  is ever used by the engine.
* `dt.datetime.combine(date, t)` followed by `.time()` is the identity on `t`;
  adding a `timedelta` of `d` minutes to such a datetime and taking `.time()`
  yields `(t + d) % 1440` minutes (the time-of-day wraps past midnight).
* The Python float argument `duration_hrs` only ever reaches the engine as
  `int(duration_hrs * 60)` minutes; we take this minute count `durMin : Nat`
  as the parameter directly.
* The persistence collaborator (`load_table`/`save_table` over the GitHub
  content API) is modelled by passing the record collections (`List User`,
  `List Booking`) explicitly and returning the updated collection; a
  transaction that performs no write returns the collection unchanged.
* Effectful oracles (random salt in `hash_password`, `utcnow`-derived booking
  ids, `now_iso` timestamps, and the SMTP send outcome) are passed as explicit
  parameters.
-/

/-- The `HALF_HOUR = dt.timedelta(minutes=30)` constant, in minutes. -/
def HALF_HOUR : Nat := 30

@[simp] lemma HALF_HOUR_eq : HALF_HOUR = 30 := rfl

/-- A row of `data/users.json` as appended by `register_user`. -/
structure User where
  username : String
  email : String
  role : String
  pwd_salt : String
  pwd_hash : String
  created_at : String
deriving DecidableEq, Repr

/-- A worker-profile row of `data/workers.json`; only the fields the engine
reads are kept (`username`, and the `daily_start`/`daily_end` window already
parsed from its `"HH:MM"` form into minutes, as `worker_daily_range` does).
Presentation fields (`name`, `city`, `skills`, `rate_per_hour`, `bio`) are
never consulted by the availability or booking logic. -/
structure Worker where
  username : String
  daily_start : Nat
  daily_end : Nat
deriving DecidableEq, Repr

/-- A booking row of `data/bookings.json`, with `start`/`end` already parsed
from their `"HH:MM"` form into minutes (the `strftime("%H:%M")` /
`map(int, s.split(":"))` round trip is the identity on in-range times). -/
structure Booking where
  id : String
  user : String
  worker : String
  date : String
  start : Nat
  «end» : Nat
  created_at : String
  status : String
deriving DecidableEq, Repr

/-- `register_user(username, email, password, role)`.  The salted password
hash produced by `hash_password` (which draws a random salt) and the
`now_iso()` timestamp are passed in as oracle parameters; they do not affect
control flow.  Returns the `(ok, message)` pair together with the resulting
`users` collection (unchanged when no write is performed). -/
def register_user (username email role salt_b64 hash_b64 created_at : String)
    (users : List User) : (Bool × String) × List User :=
  if users.any (fun u => u.username.toLower == username.toLower) then
    ((false, "Username already exists."), users)
  else
    ((true, "Account created."),
      users ++ [⟨username, email, role, salt_b64, hash_b64, created_at⟩])

/-- `worker_daily_range(worker)`: the worker's daily window as a pair of
times (already in minutes in this model). -/
def worker_daily_range (w : Worker) : Nat × Nat :=
  (w.daily_start, w.daily_end)

/-- The `while cur_dt <= end_dt - HALF_HOUR` loop of `generate_slots`:
starting from `cur` minutes, append the current time and advance by 30
minutes while `cur + 30 ≤ e`.  (Over the datetimes of one calendar day,
`cur_dt ≤ end_dt - HALF_HOUR` is exactly `cur + 30 ≤ e` on minute counts.) -/
def generate_slots_aux (cur e : Nat) : List Nat :=
  if cur + HALF_HOUR ≤ e then cur :: generate_slots_aux (cur + HALF_HOUR) e
  else []
termination_by e - cur
decreasing_by simp only [HALF_HOUR_eq] at *; omega

/-- `generate_slots(worker, date)`: the half-hour grid of candidate start
times inside the worker's daily window.  The `date` argument only selects the
calendar day of the intermediate datetimes and does not influence the
returned times of day. -/
def generate_slots (w : Worker) (date : String) : List Nat :=
  (fun se => generate_slots_aux se.1 se.2) (worker_daily_range w)

/-- `is_overlap(s1, e1, s2, e2)`: half-open interval overlap test. -/
def is_overlap (s1 e1 s2 e2 : Nat) : Bool :=
  decide (max s1 s2 < min e1 e2)

/-- `worker_booked_spans(worker_username, date)`: the `(start, end)` spans of
the bookings whose worker matches case-insensitively, whose date matches
exactly, and whose status is not `"cancelled"`.  The booking collection read
from the persistence collaborator is the explicit `rows` argument. -/
def worker_booked_spans (worker_username : String) (day : String)
    (rows : List Booking) : List (Nat × Nat) :=
  (rows.filter fun b =>
      b.worker.toLower == worker_username.toLower && b.date == day &&
        !(b.status == "cancelled")).map
    fun b => (b.start, b.«end»)

/-- `available_start_slots(worker, date, duration_hrs)` with
`durMin = int(duration_hrs * 60)`.  For each grid slot `t` the loop computes
`en_t = (t + durMin) % 1440` (the time of day of `start_dt + dur`, which
wraps past midnight), skips `t` when `t < day_start or en_t > day_end`, and
skips `t` when `(t, en_t)` overlaps some booked span. -/
def available_start_slots (w : Worker) (day : String) (durMin : Nat)
    (rows : List Booking) : List Nat :=
  let slots := generate_slots w day
  let spans := worker_booked_spans w.username day rows
  let day_start := (worker_daily_range w).1
  let day_end := (worker_daily_range w).2
  slots.filter fun t =>
    let en_t := (t + durMin) % 1440
    (!decide (t < day_start ∨ en_t > day_end)) &&
      !(spans.any fun se => is_overlap t en_t se.1 se.2)

/-- `create_booking(user, worker, date, start, duration_hrs)` with
`durMin = int(duration_hrs * 60)`.  Oracle parameters: `booking_id` (derived
from `utcnow`), `created_at` (`now_iso()`), and `email_sent` (the outcome of
the best-effort SMTP block: `True` only when the user has an email address,
SMTP is configured, and `sendmail` raised no exception).  The booking row is
appended to the collection (the `save_table` commit) unconditionally on the
success path, before the notification attempt; the notification outcome only
selects the returned message. -/
def create_booking (user_name : String) (w : Worker) (day : String)
    (start : Nat) (durMin : Nat) (booking_id created_at : String)
    (email_sent : Bool) (rows : List Booking) :
    (Bool × String) × List Booking :=
  let end_t := (start + durMin) % 1440
  if start ∈ available_start_slots w day durMin rows then
    let row : Booking :=
      ⟨booking_id, user_name, w.username, day, start, end_t, created_at,
        "confirmed"⟩
    let msg :=
      if email_sent then "Booking created successfully."
      else "Booking created successfully." ++
        " (Email not sent; check SMTP settings in secrets.toml.)"
    ((true, msg), rows ++ [row])
  else
    ((false, "Selected slot is no longer available."), rows)

/-- Half-open non-overlap of two booking rows, in the sense of §4.2 of the
spec: whenever the two rows concern the same worker (case-insensitively) and
the same date and neither is cancelled, their `[start, end)` intervals do not
intersect (`max` of starts not below `min` of ends; touching endpoints are
permitted). -/
def noConflict (b1 b2 : Booking) : Prop :=
  b1.worker.toLower = b2.worker.toLower → b1.date = b2.date →
    b1.status ≠ "cancelled" → b2.status ≠ "cancelled" →
      ¬(max b1.start b2.start < min b1.«end» b2.«end»)

/-- Booking collections reachable from the empty collection by successful
`create_booking` transactions (a failing transaction leaves the collection
unchanged, so omitting failures loses no states). -/
inductive Reachable : List Booking → Prop
  | nil : Reachable []
  | step (rows : List Booking) (user_name : String) (w : Worker)
      (day : String) (start durMin : Nat) (booking_id created_at : String)
      (email_sent : Bool) (h : Reachable rows)
      (hok : (create_booking user_name w day start durMin booking_id
          created_at email_sent rows).1.1 = true) :
      Reachable (create_booking user_name w day start durMin booking_id
        created_at email_sent rows).2

/-! ## Helper lemmas -/

/-- Closed form of the slot-generation loop: the arithmetic progression
`cur, cur + 30, ...` with `(e - cur) / 30` elements. -/
lemma generate_slots_aux_closed (n : Nat) :
    ∀ cur e : Nat, e - cur ≤ n →
      generate_slots_aux cur e =
        (List.range ((e - cur) / 30)).map (fun k => cur + 30 * k) := by
  induction n with
  | zero =>
    intro cur e h
    unfold generate_slots_aux
    rw [if_neg (by simp only [HALF_HOUR_eq]; omega)]
    rw [show (e - cur) / 30 = 0 by omega]
    simp
  | succ n ih =>
    intro cur e h
    unfold generate_slots_aux
    by_cases hc : cur + HALF_HOUR ≤ e
    · rw [if_pos hc]
      simp only [HALF_HOUR_eq] at hc
      rw [show cur + HALF_HOUR = cur + 30 by simp]
      rw [ih (cur + 30) e (by omega)]
      rw [show (e - cur) / 30 = (e - (cur + 30)) / 30 + 1 by omega]
      rw [List.range_succ_eq_map]
      simp only [List.map_cons, List.map_map]
      rw [show cur + 30 * 0 = cur by omega]
      congr 1
      apply List.map_congr_left
      intro k _
      simp only [Function.comp_apply]
      omega
    · rw [if_neg hc]
      simp only [HALF_HOUR_eq] at hc
      rw [show (e - cur) / 30 = 0 by omega]
      simp

/-- Closed form of `generate_slots`. -/
lemma generate_slots_closed (w : Worker) (day : String) :
    generate_slots w day =
      (List.range ((w.daily_end - w.daily_start) / 30)).map
        (fun k => w.daily_start + 30 * k) := by
  unfold generate_slots worker_daily_range
  exact generate_slots_aux_closed (w.daily_end - w.daily_start)
    w.daily_start w.daily_end le_rfl

/-- Membership in the generated grid. -/
lemma mem_generate_slots (w : Worker) (day : String) (t : Nat) :
    t ∈ generate_slots w day ↔
      ∃ k, t = w.daily_start + 30 * k ∧ t + 30 ≤ w.daily_end := by
  rw [generate_slots_closed]
  simp only [List.mem_map, List.mem_range]
  constructor
  · rintro ⟨k, hk, rfl⟩
    exact ⟨k, rfl, by omega⟩
  · rintro ⟨k, rfl, hle⟩
    exact ⟨k, by omega, rfl⟩

/-- Membership in the booked spans: exactly the intervals of matching,
non-cancelled bookings. -/
lemma mem_worker_booked_spans (u day : String) (rows : List Booking)
    (s e : Nat) :
    (s, e) ∈ worker_booked_spans u day rows ↔
      ∃ b ∈ rows, b.worker.toLower = u.toLower ∧ b.date = day ∧
        b.status ≠ "cancelled" ∧ b.start = s ∧ b.«end» = e := by
  unfold worker_booked_spans
  simp only [List.mem_map, List.mem_filter, Bool.and_eq_true, beq_iff_eq,
    Bool.not_eq_true', beq_eq_false_iff_ne, ne_eq, Prod.mk.injEq]
  tauto

/-- Membership in the availability result, unfolded. -/
lemma mem_available_start_slots (w : Worker) (day : String) (durMin : Nat)
    (rows : List Booking) (t : Nat) :
    t ∈ available_start_slots w day durMin rows ↔
      t ∈ generate_slots w day ∧
        ¬(t < w.daily_start ∨ (t + durMin) % 1440 > w.daily_end) ∧
        ∀ se ∈ worker_booked_spans w.username day rows,
          is_overlap t ((t + durMin) % 1440) se.1 se.2 = false := by
  unfold available_start_slots worker_daily_range
  simp only [List.mem_filter, Bool.and_eq_true, Bool.not_eq_true',
    decide_eq_false_iff_not, List.any_eq_false, Bool.not_eq_true, and_assoc]

/-- Evaluation form of `available_start_slots` in which the slot-generation
loop is replaced by its closed form, so that concrete instances reduce. -/
lemma available_start_slots_closed (w : Worker) (day : String) (durMin : Nat)
    (rows : List Booking) :
    available_start_slots w day durMin rows =
      ((List.range ((w.daily_end - w.daily_start) / 30)).map
          (fun k => w.daily_start + 30 * k)).filter
        (fun t =>
          (!decide (t < w.daily_start ∨ (t + durMin) % 1440 > w.daily_end)) &&
            !((worker_booked_spans w.username day rows).any
              fun se => is_overlap t ((t + durMin) % 1440) se.1 se.2)) := by
  unfold available_start_slots worker_daily_range
  rw [generate_slots_closed]

/-- The successful branch of `create_booking`: when the requested start is
still available, the transaction reports success and appends exactly the new
booking row, whatever the notification outcome. -/
lemma create_booking_of_mem (user_name : String) (w : Worker) (day : String)
    (start durMin : Nat) (booking_id created_at : String) (email_sent : Bool)
    (rows : List Booking)
    (h : start ∈ available_start_slots w day durMin rows) :
    create_booking user_name w day start durMin booking_id created_at
        email_sent rows =
      ((true,
          if email_sent then "Booking created successfully."
          else "Booking created successfully." ++
            " (Email not sent; check SMTP settings in secrets.toml.)"),
        rows ++ [⟨booking_id, user_name, w.username, day, start,
          (start + durMin) % 1440, created_at, "confirmed"⟩]) := by
  unfold create_booking
  rw [if_pos h]

/-- The failing branch of `create_booking`: when the requested start is not
available, the transaction fails with the slot-unavailable message and
leaves the collection unchanged. -/
lemma create_booking_of_not_mem (user_name : String) (w : Worker)
    (day : String) (start durMin : Nat) (booking_id created_at : String)
    (email_sent : Bool) (rows : List Booking)
    (h : start ∉ available_start_slots w day durMin rows) :
    create_booking user_name w day start durMin booking_id created_at
        email_sent rows =
      ((false, "Selected slot is no longer available."), rows) := by
  unfold create_booking
  rw [if_neg h]

/-- The slot accepted by the Availability Calculator is clear of every
matching non-cancelled booking already in the collection. -/
lemma mem_available_no_overlap (w : Worker) (day : String) (durMin : Nat)
    (rows : List Booking) (t : Nat)
    (ht : t ∈ available_start_slots w day durMin rows) :
    ∀ b ∈ rows, b.worker.toLower = w.username.toLower → b.date = day →
      b.status ≠ "cancelled" →
        ¬(max t b.start < min ((t + durMin) % 1440) b.«end») := by
  intro b hb hw hd hs
  rcases (mem_available_start_slots w day durMin rows t).1 ht with ⟨-, -, hsp⟩
  have hmem : (b.start, b.«end») ∈ worker_booked_spans w.username day rows :=
    (mem_worker_booked_spans w.username day rows b.start b.«end»).2
      ⟨b, hb, hw, hd, hs, rfl, rfl⟩
  have := hsp (b.start, b.«end») hmem
  simpa [is_overlap] using this

/-! ## Claim theorems -/

/-- C3: for time intervals with `e1 > s1` and `e2 > s2`, `is_overlap`
returns `true` iff `max(s1, s2) < min(e1, e2)`; intervals that merely touch
at an endpoint are reported as non-overlapping. -/
theorem is_overlap_iff_spec (s1 e1 s2 e2 : Nat) (h1 : s1 < e1)
    (h2 : s2 < e2) :
    (is_overlap s1 e1 s2 e2 = true ↔ max s1 s2 < min e1 e2) ∧
      ((e1 = s2 ∨ e2 = s1) → is_overlap s1 e1 s2 e2 = false) := by
  constructor
  · simp [is_overlap]
  · rintro (rfl | rfl)
    · simp only [is_overlap, decide_eq_false_iff_not]
      omega
    · simp only [is_overlap, decide_eq_false_iff_not]
      omega

/-- Witness for C3 at the touching intervals `[10:00, 11:00)` and
`[11:00, 12:00)` (600, 660, 720 minutes). -/
theorem is_overlap_iff_spec_witness :
    (600 : Nat) < 660 ∧ (660 : Nat) < 720 ∧
      ((is_overlap 600 660 660 720 = true ↔ max 600 660 < min 660 720) ∧
        ((660 = 660 ∨ 720 = 600) → is_overlap 600 660 660 720 = false)) :=
  ⟨by decide, by decide, is_overlap_iff_spec 600 660 660 720 (by decide)
    (by decide)⟩

/-- C4: `generate_slots` returns the ordered half-hour grid that starts at
the window start; its members are exactly the boundaries `t = S + 30k` with
`t + 30 ≤ E` (so its last element is the greatest such boundary), it is
strictly increasing, and it is empty when the window is shorter than 30
minutes. -/
theorem generate_slots_grid_spec (w : Worker) (day : String) :
    generate_slots w day =
        (List.range ((w.daily_end - w.daily_start) / 30)).map
          (fun k => w.daily_start + 30 * k) ∧
      (∀ t ∈ generate_slots w day,
        ∃ k, t = w.daily_start + 30 * k ∧ t + 30 ≤ w.daily_end) ∧
      (∀ k, w.daily_start + 30 * k + 30 ≤ w.daily_end →
        w.daily_start + 30 * k ∈ generate_slots w day) ∧
      List.Pairwise (· < ·) (generate_slots w day) ∧
      (w.daily_end < w.daily_start + 30 → generate_slots w day = []) := by
  refine ⟨generate_slots_closed w day, ?_, ?_, ?_, ?_⟩
  · intro t ht
    exact (mem_generate_slots w day t).1 ht
  · intro k hk
    exact (mem_generate_slots w day (w.daily_start + 30 * k)).2 ⟨k, rfl, hk⟩
  · rw [generate_slots_closed]
    refine List.Pairwise.map _ (fun a b hab => ?_)
      (List.pairwise_lt_range ((w.daily_end - w.daily_start) / 30))
    omega
  · intro hlt
    rw [generate_slots_closed, show (w.daily_end - w.daily_start) / 30 = 0
      by omega]
    simp

/-- C7: the Booked-Span Resolver returns exactly the `(start, end)` intervals
of the bookings whose worker matches case-insensitively, whose date matches
exactly, and whose status is not cancelled. -/
theorem worker_booked_spans_spec (u day : String) (rows : List Booking)
    (s e : Nat) :
    (s, e) ∈ worker_booked_spans u day rows ↔
      ∃ b ∈ rows, b.worker.toLower = u.toLower ∧ b.date = day ∧
        b.status ≠ "cancelled" ∧ b.start = s ∧ b.«end» = e :=
  mem_worker_booked_spans u day rows s e

/-- C1 (amended): every start time `t` accepted by the Availability
Calculator satisfies `S ≤ t`, and satisfies `t + D ≤ E` whenever the end
time `t + D` does not reach midnight.  (When `t + D ≥ 24h` the code compares
the wrapped time-of-day `(t + D) % 1440` against `E`, which can accept slots
whose unwrapped end lies past the window; see the counterexample.) -/
theorem available_start_slots_within_window (w : Worker) (day : String)
    (rows : List Booking) (durMin m : Nat) (hdur : durMin = 30 * m)
    (hm : 0 < m) (t : Nat)
    (ht : t ∈ available_start_slots w day durMin rows) :
    w.daily_start ≤ t ∧
      (t + durMin < 1440 → t + durMin ≤ w.daily_end) := by
  rcases (mem_available_start_slots w day durMin rows t).1 ht with
    ⟨hgrid, hwin, -⟩
  rcases (mem_generate_slots w day t).1 hgrid with ⟨k, rfl, -⟩
  refine ⟨by omega, fun hlt => ?_⟩
  rw [Nat.mod_eq_of_lt hlt] at hwin
  omega

/-- Witness for C1 (amended): window 09:00–18:00, duration 1.5h, slot 09:00. -/
theorem available_start_slots_within_window_witness :
    (90 : Nat) = 30 * 3 ∧ (0 : Nat) < 3 ∧
      540 ∈ available_start_slots ⟨"w", 540, 1080⟩ "2026-01-01" 90 [] ∧
      ((⟨"w", 540, 1080⟩ : Worker).daily_start ≤ 540 ∧
        (540 + 90 < 1440 → 540 + 90 ≤ (⟨"w", 540, 1080⟩ : Worker).daily_end)) :=
  ⟨rfl, by decide, by rw [available_start_slots_closed]; decide,
    available_start_slots_within_window ⟨"w", 540, 1080⟩ "2026-01-01" [] 90 3
      rfl (by decide) 540 (by rw [available_start_slots_closed]; decide)⟩

/-- Counterexample to C1 as stated: for the window 09:00–18:00 and the
duration 7h (420 minutes, a positive multiple of 30), the slot 17:30 (1050
minutes) is returned by the Availability Calculator although
`17:30 + 7h = 24:30` exceeds the 18:00 window end — the end time wraps past
midnight to 00:30, which passes the `en_t > day_end` test. -/
theorem available_start_slots_past_midnight_cex :
    (420 : Nat) = 30 * 14 ∧ (0 : Nat) < 14 ∧
      1050 ∈ available_start_slots ⟨"w", 540, 1080⟩ "2026-01-01" 420 [] ∧
      ¬(1050 + 420 ≤ (⟨"w", 540, 1080⟩ : Worker).daily_end) :=
  ⟨rfl, by decide, by rw [available_start_slots_closed]; decide, by decide⟩

/-- C8: for the window 09:00–18:00 (540–1080 minutes), no existing bookings
and duration 1.5h (90 minutes), the availability result is non-empty, starts
at 09:00 (540) and ends at 16:30 (990). -/
theorem scenario_window_nine_to_six :
    available_start_slots ⟨"w", 540, 1080⟩ "2026-01-01" 90 [] ≠ [] ∧
      (available_start_slots ⟨"w", 540, 1080⟩ "2026-01-01" 90 []).head? =
        some 540 ∧
      (available_start_slots ⟨"w", 540, 1080⟩ "2026-01-01" 90 []).getLast? =
        some 990 := by
  simp only [available_start_slots_closed]
  decide

/-- C5: when the requested start time is not in the Availability
Calculator's result for the same worker, date and duration, the Booking
Transaction fails with the slot-unavailable message and performs no write:
the booking collection is returned unchanged. -/
theorem create_booking_unavailable_no_write (user_name : String) (w : Worker)
    (day : String) (start durMin : Nat) (booking_id created_at : String)
    (email_sent : Bool) (rows : List Booking)
    (h : start ∉ available_start_slots w day durMin rows) :
    create_booking user_name w day start durMin booking_id created_at
        email_sent rows =
      ((false, "Selected slot is no longer available."), rows) :=
  create_booking_of_not_mem user_name w day start durMin booking_id
    created_at email_sent rows h

/-- Witness for C5: start 09:10 (550 minutes) is off the half-hour grid of
the 09:00–18:00 window, so it is not available and the transaction fails. -/
theorem create_booking_unavailable_no_write_witness :
    550 ∉ available_start_slots ⟨"w", 540, 1080⟩ "2026-01-01" 60 [] ∧
      create_booking "alice" ⟨"w", 540, 1080⟩ "2026-01-01" 550 60 "bk1" "t0"
          true [] =
        ((false, "Selected slot is no longer available."), []) :=
  ⟨by rw [available_start_slots_closed]; decide,
    create_booking_unavailable_no_write "alice" ⟨"w", 540, 1080⟩ "2026-01-01"
      550 60 "bk1" "t0" true []
      (by rw [available_start_slots_closed]; decide)⟩

/-- C6: when the requested start passes re-validation, the Booking
Transaction appends exactly the new booking row to the collection and
reports success for either notification outcome (the commit does not depend
on the notifier), and the returned message distinguishes the notified case
from the notification-failed case. -/
theorem create_booking_commit_and_notify (user_name : String) (w : Worker)
    (day : String) (start durMin : Nat) (booking_id created_at : String)
    (rows : List Booking)
    (h : start ∈ available_start_slots w day durMin rows) :
    (∀ email_sent : Bool,
        (create_booking user_name w day start durMin booking_id created_at
            email_sent rows).1.1 = true ∧
        (create_booking user_name w day start durMin booking_id created_at
            email_sent rows).2 =
          rows ++ [⟨booking_id, user_name, w.username, day, start,
            (start + durMin) % 1440, created_at, "confirmed"⟩]) ∧
      (create_booking user_name w day start durMin booking_id created_at
          true rows).1.2 ≠
        (create_booking user_name w day start durMin booking_id created_at
          false rows).1.2 := by
  constructor
  · intro email_sent
    rw [create_booking_of_mem user_name w day start durMin booking_id
      created_at email_sent rows h]
    exact ⟨rfl, rfl⟩
  · rw [create_booking_of_mem user_name w day start durMin booking_id
      created_at true rows h,
      create_booking_of_mem user_name w day start durMin booking_id
      created_at false rows h]
    show "Booking created successfully." ≠
      "Booking created successfully." ++
        " (Email not sent; check SMTP settings in secrets.toml.)"
    decide

/-- Witness for C6 at the available slot 10:00 (600) of the 09:00–18:00
window with a one-hour duration. -/
theorem create_booking_commit_and_notify_witness :
    600 ∈ available_start_slots ⟨"w", 540, 1080⟩ "2026-01-01" 60 [] ∧
      ((∀ email_sent : Bool,
          (create_booking "alice" ⟨"w", 540, 1080⟩ "2026-01-01" 600 60 "bk1"
              "t0" email_sent []).1.1 = true ∧
          (create_booking "alice" ⟨"w", 540, 1080⟩ "2026-01-01" 600 60 "bk1"
              "t0" email_sent []).2 =
            [] ++ [⟨"bk1", "alice", "w", "2026-01-01", 600, (600 + 60) % 1440,
              "t0", "confirmed"⟩]) ∧
        (create_booking "alice" ⟨"w", 540, 1080⟩ "2026-01-01" 600 60 "bk1"
            "t0" true []).1.2 ≠
          (create_booking "alice" ⟨"w", 540, 1080⟩ "2026-01-01" 600 60 "bk1"
            "t0" false []).1.2) :=
  ⟨by rw [available_start_slots_closed]; decide,
    create_booking_commit_and_notify "alice" ⟨"w", 540, 1080⟩ "2026-01-01"
      600 60 "bk1" "t0" [] (by rw [available_start_slots_closed]; decide)⟩

/-- Counterexample to C9 as stated: a duration of 45 minutes (0.75h, not a
multiple of 30) is not rejected.  With window 09:00–18:00 and no existing
bookings, `create_booking` at 09:00 for 45 minutes reports success and
writes a booking row (ending 09:45): no `ValidationError` is surfaced and a
write is performed. -/
theorem create_booking_no_validation_cex :
    ¬(45 % 30 = 0) ∧
      (create_booking "alice" ⟨"w", 540, 1080⟩ "2026-01-01" 540 45 "bk1" "t0"
          true []).1.1 = true ∧
      (create_booking "alice" ⟨"w", 540, 1080⟩ "2026-01-01" 540 45 "bk1" "t0"
          true []).2 =
        [⟨"bk1", "alice", "w", "2026-01-01", 540, 585, "t0", "confirmed"⟩] := by
  refine ⟨by decide, ?_⟩
  rw [create_booking_of_mem "alice" ⟨"w", 540, 1080⟩ "2026-01-01" 540 45
    "bk1" "t0" true [] (by rw [available_start_slots_closed]; decide)]
  exact ⟨rfl, rfl⟩

/-- C9 (amended): `create_booking` performs no malformed-input validation
and never surfaces a `ValidationError`.  For every request — including
durations that are not multiples of 30 minutes and start-plus-duration end
times past midnight — it either fails with the slot-unavailable message and
no write, or succeeds and appends the booking row (whose stored end is the
wrapped time of day `(start + durMin) % 1440`). -/
theorem create_booking_never_validation_error (user_name : String)
    (w : Worker) (day : String) (start durMin : Nat)
    (booking_id created_at : String) (email_sent : Bool)
    (rows : List Booking) :
    create_booking user_name w day start durMin booking_id created_at
        email_sent rows =
      ((false, "Selected slot is no longer available."), rows) ∨
    ((create_booking user_name w day start durMin booking_id created_at
        email_sent rows).1.1 = true ∧
      (create_booking user_name w day start durMin booking_id created_at
          email_sent rows).2 =
        rows ++ [⟨booking_id, user_name, w.username, day, start,
          (start + durMin) % 1440, created_at, "confirmed"⟩]) := by
  by_cases h : start ∈ available_start_slots w day durMin rows
  · right
    rw [create_booking_of_mem user_name w day start durMin booking_id
      created_at email_sent rows h]
    exact ⟨rfl, rfl⟩
  · left
    exact create_booking_of_not_mem user_name w day start durMin booking_id
      created_at email_sent rows h

/-- C10: when the users collection already holds a user whose username
matches the requested one up to case, `register_user` fails with the
duplicate-username message and performs no write. -/
theorem register_user_duplicate_username (username email role salt_b64
    hash_b64 created_at : String) (users : List User)
    (h : ∃ u ∈ users, u.username.toLower = username.toLower) :
    register_user username email role salt_b64 hash_b64 created_at users =
      ((false, "Username already exists."), users) := by
  unfold register_user
  rcases h with ⟨u, hu, he⟩
  rw [if_pos (List.any_eq_true.2 ⟨u, hu, by simpa using he⟩)]

/-- Witness for C10: registering `"alice"` again over a collection that
already stores the user `"alice"`. -/
theorem register_user_duplicate_username_witness :
    (∃ u ∈ [(⟨"alice", "a@x.com", "customer", "s0", "h0", "t0"⟩ : User)],
        u.username.toLower = "alice".toLower) ∧
      register_user "alice" "b@x.com" "worker" "s1" "h1" "t1"
          [⟨"alice", "a@x.com", "customer", "s0", "h0", "t0"⟩] =
        ((false, "Username already exists."),
          [⟨"alice", "a@x.com", "customer", "s0", "h0", "t0"⟩]) :=
  ⟨⟨⟨"alice", "a@x.com", "customer", "s0", "h0", "t0"⟩, by simp, rfl⟩,
    register_user_duplicate_username "alice" "b@x.com" "worker" "s1" "h1"
      "t1" [⟨"alice", "a@x.com", "customer", "s0", "h0", "t0"⟩]
      ⟨⟨"alice", "a@x.com", "customer", "s0", "h0", "t0"⟩, by simp, rfl⟩⟩

/-- C2: after any sequence of successful Booking Transactions starting from
the empty collection, any two bookings in the collection that concern the
same worker (case-insensitively) and the same date and are both
non-cancelled have non-overlapping `[start, end)` intervals in the half-open
sense (touching endpoints permitted). -/
theorem create_booking_no_double_booking (rows : List Booking)
    (h : Reachable rows) : List.Pairwise noConflict rows := by
  induction h with
  | nil => exact List.Pairwise.nil
  | step rows user_name w day start durMin booking_id created_at email_sent
      hR hok ih =>
    by_cases hmem : start ∈ available_start_slots w day durMin rows
    · rw [create_booking_of_mem user_name w day start durMin booking_id
        created_at email_sent rows hmem]
      rw [List.pairwise_append]
      refine ⟨ih, List.pairwise_singleton _ _, ?_⟩
      intro b hb r hr
      simp only [List.mem_singleton] at hr
      subst hr
      intro hw hd hs1 hs2
      have hclear := mem_available_no_overlap w day durMin rows start hmem b
        hb hw hd hs1
      rw [Nat.max_comm, Nat.min_comm] at hclear
      exact hclear
    · rw [create_booking_of_not_mem user_name w day start durMin booking_id
        created_at email_sent rows hmem] at hok
      simp at hok

/-- Witness for C2: the collection obtained by one successful booking of
10:00–11:00 on the 09:00–18:00 worker is reachable and pairwise
conflict-free. -/
theorem create_booking_no_double_booking_witness :
    List.Pairwise noConflict
      (create_booking "alice" ⟨"w", 540, 1080⟩ "2026-01-01" 600 60 "bk1" "t0"
        true []).2 :=
  create_booking_no_double_booking _
    (Reachable.step [] "alice" ⟨"w", 540, 1080⟩ "2026-01-01" 600 60 "bk1"
      "t0" true Reachable.nil
      (by rw [create_booking_of_mem "alice" ⟨"w", 540, 1080⟩ "2026-01-01" 600
        60 "bk1" "t0" true [] (by rw [available_start_slots_closed]; decide)]))
